import Mathlib

/-!
Verification of the schedule CLI (`src/index.ts`) against its specification.

The development shallowly embeds the program's pure logic:
* calendar arithmetic for `computeTargetDate` (JS `Date` modelled as
  milliseconds since the Unix epoch, a fixed local-timezone offset in
  minutes, no daylight-saving transitions);
* the cache-backed fetch layer `fetchWithCache` as a pure state
  transformer on an optional cache entry, with the network response
  supplied as data and the number of issued requests made explicit;
* the normalization, filter, sort and format pipeline of `main`, with
  `console.log` / `console.error` output collected into lists and the
  process exit code made explicit.
-/

namespace SSG

/-! ### Calendar arithmetic

`Int` division `/` and `%` are Euclidean; for a positive divisor they
agree with floor division, matching the day/field arithmetic of JS
`Date` (milliseconds since the epoch). -/

/-- Days since 1970-01-01 of the civil date `(y, m, d)`
(Gregorian, proleptic); the standard days-from-civil algorithm. -/
def daysFromCivil (y m d : Int) : Int :=
  let yAdj := if m ≤ 2 then y - 1 else y
  let era := yAdj / 400
  let yoe := yAdj - era * 400
  let mp := (m + 9) % 12
  let doy := (153 * mp + 2) / 5 + d - 1
  let doe := yoe * 365 + yoe / 4 - yoe / 100 + doy
  era * 146097 + doe - 719468

/-- Civil date `(y, m, d)` of the day `z` days after 1970-01-01;
the standard civil-from-days algorithm. -/
def civilFromDays (z : Int) : Int × Int × Int :=
  let z2 := z + 719468
  let era := z2 / 146097
  let doe := z2 - era * 146097
  let yoe := (doe - doe / 1460 + doe / 36524 - doe / 146096) / 365
  let y := yoe + era * 400
  let doy := doe - (365 * yoe + yoe / 4 - yoe / 100)
  let mp := (5 * doy + 2) / 153
  let d := doy - (153 * mp + 2) / 5 + 1
  let m := mp + (if mp < 10 then 3 else -9)
  (if m ≤ 2 then y + 1 else y, m, d)

/-- Zero-pad a (nonnegative) integer to two digits, as JS
`String(..).padStart(2, '0')` and the 2-digit fields of `toISOString`. -/
def pad2 (n : Int) : String :=
  if n < 10 then "0" ++ toString n else toString n

/-- Zero-pad a (nonnegative) integer to four digits (the year field of
`toISOString`). -/
def pad4 (n : Int) : String :=
  let s := toString n
  if n < 0 then s else String.mk (List.replicate (4 - s.length) '0') ++ s

/-- Render the day `z` (days since the epoch) as `YYYY-MM-DD`, the date
part of JS `Date.prototype.toISOString`. -/
def renderYMD (z : Int) : String :=
  let c := civilFromDays z
  pad4 c.1 ++ "-" ++ pad2 c.2.1 ++ "-" ++ pad2 c.2.2

/-- One day in milliseconds. -/
def MS_PER_DAY : Int := 86400000

/-- `computeTargetDate` (src/index.ts:102-106).  `new Date()` holds the
instant `nowMs` (ms since epoch, UTC); `tz` is the local-timezone offset
in minutes (local wall time = UTC + `tz`), fixed across the computation
(no DST transition).  `setDate(getDate() + daysOffset)` moves the LOCAL
calendar date by `daysOffset` days keeping the local time of day, and
`toISOString().split('T')[0]` then renders the UTC date of the resulting
instant. -/
def computeTargetDate (nowMs tz : Int) (daysOffset : Int) : String :=
  let localMs := nowMs + tz * 60000
  let shifted :=
    (localMs / MS_PER_DAY + daysOffset) * MS_PER_DAY + localMs % MS_PER_DAY
      - tz * 60000
  renderYMD (shifted / MS_PER_DAY)

/-- Modelled from the spec: "compute `targetDate = today + offset days`
as a calendar date in the local timezone, formatted `YYYY-MM-DD`" — the
local calendar date of `nowMs`, advanced by `daysOffset` days. -/
def specTargetDate (nowMs tz : Int) (daysOffset : Int) : String :=
  renderYMD ((nowMs + tz * 60000) / MS_PER_DAY + daysOffset)

theorem shifted_eq (nowMs tz d : Int) :
    ((nowMs + tz * 60000) / MS_PER_DAY + d) * MS_PER_DAY
      + (nowMs + tz * 60000) % MS_PER_DAY - tz * 60000
    = nowMs + d * MS_PER_DAY := by
  simp only [MS_PER_DAY]
  omega

/-- C1 (amended): for every current instant, fixed local-timezone offset
and day offset `d`, the target date produced by `computeTargetDate` is
the UTC calendar date of the current instant plus `d` days — the code
shifts the date in local time but renders the result with
`toISOString`, which formats in UTC, so the rendered date is the UTC
date, not the local calendar date. -/
theorem computeTargetDate_eq_utc (nowMs tz d : Int) :
    computeTargetDate nowMs tz d = renderYMD (nowMs / MS_PER_DAY + d) := by
  simp only [computeTargetDate]
  rw [shifted_eq]
  have : (nowMs + d * MS_PER_DAY) / MS_PER_DAY = nowMs / MS_PER_DAY + d := by
    simp only [MS_PER_DAY]; omega
  rw [this]

/-- C1 counterexample: at the instant 1970-01-01T02:00Z with a local
timezone of UTC-4 (offset -240 minutes, so the local calendar date is
still 1969-12-31) and day offset 0, the code renders "1970-01-01" — the
UTC date — while the claimed local-timezone date is "1969-12-31". -/
theorem computeTargetDate_local_cex :
    computeTargetDate 7200000 (-240) 0 = "1970-01-01" ∧
    specTargetDate 7200000 (-240) 0 = "1969-12-31" ∧
    computeTargetDate 7200000 (-240) 0 ≠ specTargetDate 7200000 (-240) 0 := by
  refine ⟨by decide, by decide, by decide⟩

/-! ### Data model -/

/-- The two leagues (`'CFB' | 'NFL'`, src/index.ts:30). -/
inductive League where
  | CFB
  | NFL
deriving DecidableEq, Repr

/-- The normalized `Game` record (src/index.ts:29-37).  The JS values
`null`/absent for the nullable string fields are modelled as `none`;
a present JS string `s` is `some s`. -/
structure Game where
  league : League
  home : String
  away : String
  dateTime : Option String
  day : Option String
  week : Int
  channel : Option String
deriving DecidableEq, Repr

/-- An NFL team directory record (src/index.ts:39). -/
structure NFLTeam where
  Key : String
  FullName : String
deriving DecidableEq, Repr

/-- A raw upstream game record, carrying the fields read by `fetchGames`
(src/index.ts:91-99).  CFB records use `HomeTeamName`/`AwayTeamName`,
NFL records use the short codes `HomeTeam`/`AwayTeam`; one structure
with all fields models both shapes.  `none` models a JS
`undefined`/`null` field. -/
structure RawGame where
  HomeTeam : String
  AwayTeam : String
  HomeTeamName : String
  AwayTeamName : String
  DateTime : Option String
  Day : Option String
  Week : Int
  Channel : Option String
deriving DecidableEq, Repr

/-- `charsStarts s p`: the char list `p` is a prefix of `s`
(char-list form of `String.prototype.startsWith`). -/
def charsStarts : List Char → List Char → Bool
  | _, [] => true
  | [], _ :: _ => false
  | c :: cs, p :: ps => (c == p) && charsStarts cs ps

/-- JS `String.prototype.startsWith`. -/
def strStarts (s pre : String) : Bool :=
  charsStarts s.data pre.data

/-- `charsIncl s sub`: `sub` occurs contiguously in `s`. -/
def charsIncl : List Char → List Char → Bool
  | [], sub => charsStarts [] sub
  | c :: rest, sub => charsStarts (c :: rest) sub || charsIncl rest sub

/-- JS `String.prototype.includes`. -/
def strIncludes (s sub : String) : Bool :=
  charsIncl s.data sub.data

/-- JS `String.prototype.toUpperCase` (ASCII, as the team codes are). -/
def strUpper (s : String) : String := ⟨s.data.map Char.toUpper⟩

/-- JS `String.prototype.toLowerCase` (ASCII, as the team names are). -/
def strLower (s : String) : String := ⟨s.data.map Char.toLower⟩

/-- JS truthiness of an optional string: `undefined`, `null` and the
empty string are falsy. -/
def jsTruthy : Option String → Bool
  | none => false
  | some s => !(s == "")

/-- JS `a || b` where `a` is an optional string and `b` a string:
returns `a`'s value when truthy, else `b`. -/
def jsOr (a : Option String) (b : String) : String :=
  match a with
  | none => b
  | some s => if s == "" then b else s

/-- JS `a || null` on an optional string (src/index.ts:95-98): a falsy
value (absent or empty) becomes `null`. -/
def jsOrNull (a : Option String) : Option String :=
  match a with
  | none => none
  | some s => if s == "" then none else some s

/-! ### Team lookup and normalization -/

/-- The team map built by `fetchNFLTeams` (src/index.ts:75-81): a JS
object keyed by `Key.toUpperCase()` where later records overwrite
earlier ones, read off as a lookup function.  Property access on a
missing key yields `undefined` (`none`). -/
def teamLookup (teams : List NFLTeam) (code : String) : Option String :=
  (teams.reverse.find? fun t => strUpper t.Key == code).map (·.FullName)

/-- Normalization of one raw record by `fetchGames` (src/index.ts:91-99).
For NFL, home/away are `nflTeams?.[g.HomeTeam] || g.HomeTeam` (the raw
code is used verbatim when the lookup misses or its value is falsy);
for CFB the upstream full names are used directly. -/
def normGame (league : League) (lookup : String → Option String)
    (g : RawGame) : Game :=
  { league := league
    home := match league with
      | .NFL => jsOr (lookup g.HomeTeam) g.HomeTeam
      | .CFB => g.HomeTeamName
    away := match league with
      | .NFL => jsOr (lookup g.AwayTeam) g.AwayTeam
      | .CFB => g.AwayTeamName
    dateTime := jsOrNull g.DateTime
    day := jsOrNull g.Day
    week := g.Week
    channel := jsOrNull g.Channel }

/-! ### Filters -/

/-- The date-filter predicate (src/index.ts:175-179):
`(g.dateTime && g.dateTime.startsWith(targetDate)) ||
 (g.day && g.day.startsWith(targetDate))`. -/
def dateFilterKeep (target : String) (g : Game) : Bool :=
  (jsTruthy g.dateTime && strStarts (g.dateTime.getD "") target) ||
  (jsTruthy g.day && strStarts (g.day.getD "") target)

/-- Modelled from the claim's words for C2: keep iff `dateTime` is
present and starts with the target, or `dateTime` is absent, `day` is
present, and `day` starts with the target. -/
def specDateFilterKeep (target : String) (g : Game) : Bool :=
  match g.dateTime with
  | some s => strStarts s target
  | none =>
    match g.day with
    | some s => strStarts s target
    | none => false

/-- The team-filter predicate (src/index.ts:185-189): the lower-cased
home or away name contains the lower-cased search string. -/
def teamFilterKeep (search : String) (g : Game) : Bool :=
  strIncludes (strLower g.home) search || strIncludes (strLower g.away) search

/-- One truthiness-guarded disjunct of the date filter, in `Option`
language. -/
theorem truthyStart_iff (o : Option String) (t : String) :
    (jsTruthy o && strStarts (o.getD "") t) = true ↔
      ∃ s, o = some s ∧ s ≠ "" ∧ strStarts s t = true := by
  cases o with
  | none => simp [jsTruthy]
  | some s =>
    simp only [jsTruthy, Option.getD_some, Bool.and_eq_true,
      Bool.not_eq_true', beq_eq_false_iff_ne, Option.some.injEq]
    constructor
    · intro h
      exact ⟨s, rfl, h.1, h.2⟩
    · rintro ⟨x, hx, hne, hst⟩
      subst hx
      exact ⟨hne, hst⟩

/-- C2 (amended): under an active date filter with target string `t`, a
`Game` is kept iff its `dateTime` is present, nonempty and starts with
`t`, OR its `day` is present, nonempty and starts with `t` — the `day`
disjunct applies even when a present `dateTime` does not start with
`t`.  A `Game` with neither field is always excluded. -/
theorem dateFilterKeep_iff (t : String) (g : Game) :
    (dateFilterKeep t g = true ↔
      (∃ s, g.dateTime = some s ∧ s ≠ "" ∧ strStarts s t = true) ∨
      (∃ s, g.day = some s ∧ s ≠ "" ∧ strStarts s t = true)) ∧
    (g.dateTime = none → g.day = none → dateFilterKeep t g = false) := by
  constructor
  · unfold dateFilterKeep
    rw [Bool.or_eq_true, truthyStart_iff, truthyStart_iff]
  · intro h1 h2
    unfold dateFilterKeep
    rw [h1, h2]
    rfl

/-- C2 witness: a `Game` with neither `dateTime` nor `day` is excluded
by the date filter. -/
theorem dateFilterKeep_iff_witness :
    dateFilterKeep "2025-09-01" (Game.mk .CFB "h" "a" none none 1 none) = false :=
  (dateFilterKeep_iff "2025-09-01" (Game.mk .CFB "h" "a" none none 1 none)).2
    rfl rfl

/-- C2 counterexample: with target `"2025-09-01"`, a `Game` whose
`dateTime` is present but starts with `"2025-09-02"` and whose `day`
starts with the target is KEPT by the code, while the claim says a
`Game` with a present `dateTime` not starting with the target is
excluded regardless of its `day`. -/
theorem dateFilterKeep_cex :
    dateFilterKeep "2025-09-01"
      ⟨.NFL, "H", "A", some "2025-09-02T13:00:00",
        some "2025-09-01T00:00:00", 1, none⟩ = true ∧
    specDateFilterKeep "2025-09-01"
      ⟨.NFL, "H", "A", some "2025-09-02T13:00:00",
        some "2025-09-01T00:00:00", 1, none⟩ = false := by
  refine ⟨by decide, by decide⟩

/-- C7: for every team directory and every NFL raw record, if the
lookup built by `fetchNFLTeams` has no entry for the record's home or
away short code, that raw code passes through verbatim as the
normalized `home`/`away` value; normalization is total, so a missing
lookup entry never fails. -/
theorem teamLookup_fallback (teams : List NFLTeam) (g : RawGame)
    (hh : teamLookup teams g.HomeTeam = none)
    (ha : teamLookup teams g.AwayTeam = none) :
    (normGame .NFL (teamLookup teams) g).home = g.HomeTeam ∧
    (normGame .NFL (teamLookup teams) g).away = g.AwayTeam := by
  unfold normGame
  rw [hh, ha]
  exact ⟨rfl, rfl⟩

/-- C7 witness: a directory keyed by the upper-cased code "PHI" has no
entry for the raw codes "phi" (case-sensitive property access) or
"XXX", so both pass through verbatim. -/
theorem teamLookup_fallback_witness :
    teamLookup [⟨"phi", "Philadelphia Eagles"⟩] "phi" = none ∧
    teamLookup [⟨"phi", "Philadelphia Eagles"⟩] "XXX" = none ∧
    (normGame .NFL (teamLookup [⟨"phi", "Philadelphia Eagles"⟩])
      ⟨"phi", "XXX", "", "", none, none, 1, none⟩).home = "phi" ∧
    (normGame .NFL (teamLookup [⟨"phi", "Philadelphia Eagles"⟩])
      ⟨"phi", "XXX", "", "", none, none, 1, none⟩).away = "XXX" := by
  refine ⟨by decide, by decide, ?_, ?_⟩
  · exact (teamLookup_fallback [⟨"phi", "Philadelphia Eagles"⟩]
      ⟨"phi", "XXX", "", "", none, none, 1, none⟩ (by decide) (by decide)).1
  · exact (teamLookup_fallback [⟨"phi", "Philadelphia Eagles"⟩]
      ⟨"phi", "XXX", "", "", none, none, 1, none⟩ (by decide) (by decide)).2

/-! ### Sorting (src/index.ts:202-207) -/

/-- Decimal value of a digit list. -/
def digitsVal (cs : List Char) : Nat :=
  cs.foldl (fun a c => a * 10 + (c.toNat - 48)) 0

/-- The number formed by `len` characters of `s` starting at `start`. -/
def sliceNat (s : String) (start len : Nat) : Nat :=
  digitsVal ((s.data.drop start).take len)

/-- `new Date(s).getTime()` for the ISO-format date strings the API
supplies (`YYYY-MM-DD...` with an optional `THH:MM:SS` part), modelled
with a UTC local zone: milliseconds since the epoch of the encoded
date and time-of-day. -/
def jsDateParse (s : String) : Int :=
  let y : Int := sliceNat s 0 4
  let mo : Int := sliceNat s 5 2
  let d : Int := sliceNat s 8 2
  let h : Int := if 19 ≤ s.data.length then sliceNat s 11 2 else 0
  let mi : Int := if 19 ≤ s.data.length then sliceNat s 14 2 else 0
  let se : Int := if 19 ≤ s.data.length then sliceNat s 17 2 else 0
  daysFromCivil y mo d * MS_PER_DAY
    + h * 3600000 + mi * 60000 + se * 1000

/-- The effective time used by the sort comparator (src/index.ts:204):
`new Date(a.dateTime || a.day || 0).getTime()` — `dateTime` if truthy,
else `day` if truthy, else the epoch (`new Date(0)`). -/
def effTime (g : Game) : Int :=
  if jsTruthy g.dateTime then jsDateParse (g.dateTime.getD "")
  else if jsTruthy g.day then jsDateParse (g.day.getD "")
  else 0

/-- A `Game` carries some time information: a truthy `dateTime` or
`day`. -/
def hasTimeInfo (g : Game) : Bool :=
  jsTruthy g.dateTime || jsTruthy g.day

/-- The sort comparator (src/index.ts:202-207): week difference when
the weeks differ, else the difference of effective times. -/
def gameCmp (a b : Game) : Int :=
  if a.week = b.week then effTime a - effTime b else a.week - b.week

/-- `a` sorts no later than `b`: the comparator is nonpositive.  JS
`Array.prototype.sort` with comparator `c` orders the array so that
`c(a, b) ≤ 0` holds left to right. -/
def gameLE (a b : Game) : Prop := gameCmp a b ≤ 0

instance : DecidableRel gameLE := fun a b =>
  inferInstanceAs (Decidable (gameCmp a b ≤ 0))

theorem gameLE_iff (a b : Game) :
    gameLE a b ↔ a.week < b.week ∨ (a.week = b.week ∧ effTime a ≤ effTime b) := by
  unfold gameLE gameCmp
  split <;> omega

instance : IsTotal Game gameLE :=
  ⟨fun a b => by rw [gameLE_iff, gameLE_iff]; omega⟩

instance : IsTrans Game gameLE :=
  ⟨fun a b c hab hbc => by
    rw [gameLE_iff] at hab hbc ⊢
    omega⟩

/-- The sort of the combined game list: a comparator-based sort by
`gameLE`, as `combined.sort(...)` (src/index.ts:202-207). -/
def sortGames (l : List Game) : List Game :=
  List.insertionSort gameLE l

theorem effTime_of_no_info (g : Game) (h : hasTimeInfo g = false) :
    effTime g = 0 := by
  unfold hasTimeInfo at h
  rcases Bool.or_eq_false_iff.mp h with ⟨h1, h2⟩
  unfold effTime
  rw [h1, h2]
  rfl

/-- C4 (amended): for every list of `Game`s, the sorted output is a
permutation of the input ordered by week ascending with ties broken by
effective time ascending (effective time: `dateTime` if truthy, else
`day`, else epoch zero); within a tied week the entries with no time
information come first PROVIDED every entry carrying time information
has an effective time after the epoch — an entry whose date parses
before 1970 sorts before the no-information entries. -/
theorem sortGames_spec (l : List Game) :
    (sortGames l).Perm l ∧
    (sortGames l).Pairwise
      (fun a b => a.week < b.week ∨ (a.week = b.week ∧ effTime a ≤ effTime b)) ∧
    ((∀ g ∈ l, hasTimeInfo g = true → 0 < effTime g) →
      (sortGames l).Pairwise
        (fun a b => a.week = b.week → hasTimeInfo b = false → hasTimeInfo a = false)) := by
  have hperm : (sortGames l).Perm l := List.perm_insertionSort gameLE l
  have hs : (sortGames l).Pairwise gameLE := List.sorted_insertionSort gameLE l
  refine ⟨hperm, hs.imp fun h => (gameLE_iff _ _).1 h, ?_⟩
  intro hpos
  refine List.Pairwise.imp_of_mem ?_ hs
  intro a b ha hb hab hw hbno
  rcases Bool.eq_false_or_eq_true (hasTimeInfo a) with hta | hfa
  · exfalso
    have hpa := hpos a (hperm.mem_iff.1 ha) hta
    have hbz : effTime b = 0 := effTime_of_no_info b hbno
    have hle := (gameLE_iff a b).1 hab
    omega
  · exact hfa

/-- C4 witness for the conditional part: a two-game week-tied list
where the dated entry's time is after the epoch, so the entry with no
time information sorts first. -/
theorem sortGames_spec_witness :
    (∀ g ∈ [Game.mk .CFB "h" "a" (some "2025-09-01T13:00:00") none 1 none,
            Game.mk .CFB "h2" "a2" none none 1 none],
        hasTimeInfo g = true → 0 < effTime g) ∧
    (sortGames [Game.mk .CFB "h" "a" (some "2025-09-01T13:00:00") none 1 none,
                Game.mk .CFB "h2" "a2" none none 1 none]).Pairwise
      (fun a b => a.week = b.week → hasTimeInfo b = false → hasTimeInfo a = false) :=
  ⟨by decide,
   (sortGames_spec
      [Game.mk .CFB "h" "a" (some "2025-09-01T13:00:00") none 1 none,
       Game.mk .CFB "h2" "a2" none none 1 none]).2.2 (by decide)⟩

/-- C4 counterexample: in a week-tied list containing an entry whose
`day` parses before the epoch ("1969-12-31") and an entry with no time
information, the sorted order places the no-information entry LAST, not
first — its epoch-zero effective time exceeds the negative time of the
pre-1970 entry. -/
theorem sortGames_cex :
    sortGames [Game.mk .CFB "h" "a" none none 1 none,
               Game.mk .CFB "h2" "a2" none (some "1969-12-31") 1 none] =
      [Game.mk .CFB "h2" "a2" none (some "1969-12-31") 1 none,
       Game.mk .CFB "h" "a" none none 1 none] ∧
    hasTimeInfo (Game.mk .CFB "h" "a" none none 1 none) = false ∧
    hasTimeInfo (Game.mk .CFB "h2" "a2" none (some "1969-12-31") 1 none) = true ∧
    (Game.mk .CFB "h" "a" none none 1 none).week =
      (Game.mk .CFB "h2" "a2" none (some "1969-12-31") 1 none).week := by
  refine ⟨by decide, by decide, by decide, by decide⟩

/-! ### Cache-backed fetch (src/index.ts:42-73)

The cache entry for one key is modelled as `Option (CacheEntry α)`:
`none` means no file on disk, `some e` a stored payload `e.data` whose
last-modification time is `e.mtime` (ms since the epoch, as
`fs.statSync(..).mtimeMs`).  The outcome of the single HTTP GET the
code may issue is supplied as a `NetResponse`; `body = none` models a
response whose body fails to parse as JSON. -/

/-- A cached payload with its last-modification time. -/
structure CacheEntry (α : Type) where
  mtime : Int
  data : α
deriving DecidableEq, Repr

/-- The outcome of the HTTP GET: `ok`/`status` as on a JS `Response`;
`body = some d` a JSON body parsing to `d`, `body = none` a body that
fails to parse. -/
structure NetResponse (α : Type) where
  ok : Bool
  status : Nat
  body : Option α
deriving DecidableEq, Repr

/-- The result of one `fetchWithCache` call: the returned value or the
thrown error message, the cache entry afterwards, and the number of
network requests issued (0 or 1). -/
structure FetchResult (α : Type) where
  result : Except String α
  cache : Option (CacheEntry α)
  requests : Nat

/-- `CACHE_TTL` (src/index.ts:21): 12 hours in milliseconds. -/
def CACHE_TTL : Int := 1000 * 60 * 60 * 12

/-- Freshness of a cache entry (spec §4.1 `isFresh`; inlined in
src/index.ts:61-63): an absent entry is never fresh, a present one is
fresh iff `now - lastModified < ttl` (strict). -/
def isFresh {α : Type} (entry : Option (CacheEntry α)) (now ttl : Int) : Bool :=
  match entry with
  | none => false
  | some e => decide (now - e.mtime < ttl)

/-- The network half of `fetchWithCache` (src/index.ts:68-72): one GET;
a non-ok response throws `HTTP <status> for <url>` without touching the
cache; a body that fails to parse throws without touching the cache; a
parsed body is written to the cache (mtime := now) and returned. -/
def fetchRemote {α : Type} (url : String) (now : Int) (resp : NetResponse α)
    (old : Option (CacheEntry α)) : FetchResult α :=
  if resp.ok then
    match resp.body with
    | some d => ⟨.ok d, some ⟨now, d⟩, 1⟩
    | none => ⟨.error "Unexpected end of JSON input", old, 1⟩
  else ⟨.error ("HTTP " ++ toString resp.status ++ " for " ++ url), old, 1⟩

/-- `fetchWithCache` (src/index.ts:57-73): if the cache file exists and
is fresh, return the stored payload without network activity;
otherwise go to the network via `fetchRemote`. -/
def fetchWithCache {α : Type} (url : String) (now : Int) (resp : NetResponse α)
    (cache : Option (CacheEntry α)) : FetchResult α :=
  match cache with
  | some e =>
    if now - e.mtime < CACHE_TTL then ⟨.ok e.data, some e, 0⟩
    else fetchRemote url now resp (some e)
  | none => fetchRemote url now resp none

theorem fetchWithCache_not_fresh {α : Type} (url : String) (now : Int)
    (r : NetResponse α) (st : Option (CacheEntry α))
    (h : isFresh st now CACHE_TTL = false) :
    fetchWithCache url now r st = fetchRemote url now r st := by
  cases st with
  | none => rfl
  | some e =>
    unfold isFresh at h
    rw [decide_eq_false_iff_not] at h
    show (if now - e.mtime < CACHE_TTL
        then FetchResult.mk (Except.ok e.data) (some e) 0
        else fetchRemote url now r (some e)) = fetchRemote url now r (some e)
    rw [if_neg h]

theorem fetchRemote_success {α : Type} (url : String) (now : Int)
    (r : NetResponse α) (old : Option (CacheEntry α)) (d : α)
    (hok : r.ok = true) (hb : r.body = some d) :
    fetchRemote url now r old = ⟨.ok d, some ⟨now, d⟩, 1⟩ := by
  unfold fetchRemote
  rw [hok, hb]
  rfl

/-- C3: for every cache key state, (1) a call finding no fresh entry
that succeeds issues one request and stores the payload, and a second
call within the TTL of that write issues no request, returning the
stored payload and leaving the entry unchanged — one request across
the two calls; (2) a call on an entry at least TTL old issues one
request and overwrites the entry with the new payload at the new time;
(3) freshness holds iff the entry is present and `now - mtime < ttl`
strictly, and an absent entry is never fresh; (4) a call is a pure
cache read (zero requests) iff the entry is fresh. -/
theorem fetchWithCache_ttl (α : Type) :
    (∀ (url : String) (st : Option (CacheEntry α)) (now1 now2 : Int)
        (r1 r2 : NetResponse α) (d : α),
      isFresh st now1 CACHE_TTL = false → r1.ok = true → r1.body = some d →
      now2 - now1 < CACHE_TTL →
      (fetchWithCache url now1 r1 st).requests = 1 ∧
      (fetchWithCache url now1 r1 st).cache = some ⟨now1, d⟩ ∧
      (fetchWithCache url now2 r2 (fetchWithCache url now1 r1 st).cache).requests = 0 ∧
      (fetchWithCache url now2 r2 (fetchWithCache url now1 r1 st).cache).result = .ok d ∧
      (fetchWithCache url now2 r2 (fetchWithCache url now1 r1 st).cache).cache =
        (fetchWithCache url now1 r1 st).cache) ∧
    (∀ (url : String) (e : CacheEntry α) (now : Int) (r : NetResponse α) (d : α),
      CACHE_TTL ≤ now - e.mtime → r.ok = true → r.body = some d →
      fetchWithCache url now r (some e) = ⟨.ok d, some ⟨now, d⟩, 1⟩) ∧
    (∀ (st : Option (CacheEntry α)) (now ttl : Int),
      (isFresh st now ttl = true ↔ ∃ e, st = some e ∧ now - e.mtime < ttl) ∧
      isFresh (none : Option (CacheEntry α)) now ttl = false) ∧
    (∀ (url : String) (now : Int) (r : NetResponse α) (st : Option (CacheEntry α)),
      (fetchWithCache url now r st).requests = 0 ↔ isFresh st now CACHE_TTL = true) := by
  refine ⟨?_, ?_, ?_, ?_⟩
  · intro url st now1 now2 r1 r2 d hfr hok hb hwin
    have h1 : fetchWithCache url now1 r1 st = ⟨.ok d, some ⟨now1, d⟩, 1⟩ :=
      (fetchWithCache_not_fresh url now1 r1 st hfr).trans
        (fetchRemote_success url now1 r1 st d hok hb)
    rw [h1]
    refine ⟨rfl, rfl, ?_, ?_, ?_⟩ <;> simp [fetchWithCache, hwin]
  · intro url e now r d hold hok hb
    have hfr : isFresh (some e) now CACHE_TTL = false := by
      unfold isFresh
      rw [decide_eq_false_iff_not]
      omega
    rw [fetchWithCache_not_fresh url now r (some e) hfr]
    exact fetchRemote_success url now r (some e) d hok hb
  · intro st now ttl
    refine ⟨?_, rfl⟩
    cases st with
    | none => simp [isFresh]
    | some e => simp [isFresh]
  · intro url now r st
    cases st with
    | none =>
      simp only [isFresh]
      constructor
      · intro h
        exfalso
        have : (fetchRemote url now r (none : Option (CacheEntry α))).requests = 1 := by
          unfold fetchRemote
          cases hok : r.ok <;> simp [hok]
          cases r.body <;> rfl
        simp [fetchWithCache, this] at h
      · intro h
        exact absurd h (by simp)
    | some e =>
      unfold fetchWithCache isFresh
      by_cases hc : now - e.mtime < CACHE_TTL
      · simp [hc]
      · have : (fetchRemote url now r (some e)).requests = 1 := by
          unfold fetchRemote
          cases hok : r.ok <;> simp [hok]
          cases r.body <;> rfl
        simp [hc, this]

/-- C3 witness: starting from an absent entry at time 0, a successful
fetch of the payload 7 issues one request and stores it; a second call
at time 1 (within the 12-hour TTL) issues no request and returns the
stored 7 unchanged. -/
theorem fetchWithCache_ttl_witness :
    (fetchWithCache "u" 0 (NetResponse.mk true 200 (some 7))
        (none : Option (CacheEntry Nat))).requests = 1 ∧
    (fetchWithCache "u" 0 (NetResponse.mk true 200 (some 7))
        (none : Option (CacheEntry Nat))).cache = some ⟨0, 7⟩ ∧
    (fetchWithCache "u" 1 (NetResponse.mk true 200 (some 8))
        (fetchWithCache "u" 0 (NetResponse.mk true 200 (some 7))
          (none : Option (CacheEntry Nat))).cache).requests = 0 ∧
    (fetchWithCache "u" 1 (NetResponse.mk true 200 (some 8))
        (fetchWithCache "u" 0 (NetResponse.mk true 200 (some 7))
          (none : Option (CacheEntry Nat))).cache).result = .ok 7 ∧
    (fetchWithCache "u" 1 (NetResponse.mk true 200 (some 8))
        (fetchWithCache "u" 0 (NetResponse.mk true 200 (some 7))
          (none : Option (CacheEntry Nat))).cache).cache =
      (fetchWithCache "u" 0 (NetResponse.mk true 200 (some 7))
        (none : Option (CacheEntry Nat))).cache :=
  (fetchWithCache_ttl Nat).1 "u" none 0 1 ⟨true, 200, some 7⟩ ⟨true, 200, some 8⟩ 7
    (by decide) rfl rfl (by decide)

/-- C10: if the entry for a key exists but is stale and the refresh
fails — non-2xx response (an error carrying status code and URL) or a
body that fails to parse as JSON — `fetchWithCache` performs no cache
write: the stale entry is left exactly as it was, and the call throws. -/
theorem staleFailure_cache_unchanged {α : Type} (url : String)
    (e : CacheEntry α) (now : Int) (r : NetResponse α)
    (hstale : isFresh (some e) now CACHE_TTL = false)
    (hfail : r.ok = false ∨ r.body = none) :
    (fetchWithCache url now r (some e)).cache = some e ∧
    (∃ m, (fetchWithCache url now r (some e)).result = .error m) ∧
    (r.ok = false →
      (fetchWithCache url now r (some e)).result =
        .error ("HTTP " ++ toString r.status ++ " for " ++ url)) := by
  rw [fetchWithCache_not_fresh url now r (some e) hstale]
  unfold fetchRemote
  rcases hfail with hok | hb
  · rw [hok]
    exact ⟨rfl, ⟨_, rfl⟩, fun _ => rfl⟩
  · cases hok : r.ok
    · exact ⟨rfl, ⟨_, rfl⟩, fun _ => rfl⟩
    · rw [hb]
      exact ⟨rfl, ⟨_, rfl⟩, fun h => absurd h (by simp)⟩

/-- C10 witness: a stale entry holding 5, refresh answered by HTTP 404:
the entry is unchanged and the error names the status and URL. -/
theorem staleFailure_cache_unchanged_witness :
    (fetchWithCache "u" CACHE_TTL (NetResponse.mk false 404 none)
        (some (⟨0, 5⟩ : CacheEntry Nat))).cache = some ⟨0, 5⟩ ∧
    (fetchWithCache "u" CACHE_TTL (NetResponse.mk false 404 none)
        (some (⟨0, 5⟩ : CacheEntry Nat))).result = .error "HTTP 404 for u" :=
  ⟨(staleFailure_cache_unchanged "u" ⟨0, 5⟩ CACHE_TTL ⟨false, 404, none⟩
      (by decide) (Or.inl rfl)).1,
   (staleFailure_cache_unchanged "u" ⟨0, 5⟩ CACHE_TTL ⟨false, 404, none⟩
      (by decide) (Or.inl rfl)).2.2 rfl⟩

/-! ### Command surface and main pipeline (src/index.ts:124-243) -/

/-- JS `parseInt(s, 10)`: skip leading whitespace, read an optional
sign and then a maximal run of decimal digits; `none` models `NaN` (no
digits found), otherwise the signed value of the digit run — trailing
garbage such as ".5" is ignored. -/
def jsParseInt (s : String) : Option Int :=
  let cs := s.data.dropWhile fun c =>
    c == ' ' || c == '\t' || c == '\n' || c == '\r'
  let sr : Int × List Char :=
    match cs with
    | '-' :: r => (-1, r)
    | '+' :: r => (1, r)
    | r => (1, r)
  let ds := sr.2.takeWhile Char.isDigit
  if ds.isEmpty then none else some (sr.1 * (digitsVal ds : Int))

/-- Modelled from the claim's words for C5: the string denotes an
integer — an optional sign followed only by digits. -/
def isIntegerString (s : String) : Bool :=
  let cs : List Char :=
    match s.data with
    | '-' :: r => r
    | '+' :: r => r
    | r => r
  !cs.isEmpty && cs.all Char.isDigit

/-- The usage error printed for an unparsable `--days` value
(src/index.ts:155). -/
def invalidDaysMsg : String :=
  "Invalid value for --days. Use numbers like 0, +1, -1."

/-- The argument-validation phase (src/index.ts:149-158).  `days` and
`team` are the option values, with `""` the "not provided" sentinel.
`Except.error` is the usage-error path (`process.exit(1)`); `Except.ok`
carries the selected day offset, `none` meaning "no date filter". -/
def validateDays (days team : String) : Except String (Option Int) :=
  if days == "" && team == "" then .ok (some 0)
  else if !(days == "") then
    match jsParseInt days with
    | none => .error invalidDaysMsg
    | some n => .ok (some n)
  else .ok none

/-- Weekday abbreviations as produced by
`toLocaleDateString('en-US', { weekday: 'short' }).toUpperCase()`. -/
def WEEKDAYS : List String := ["SUN", "MON", "TUE", "WED", "THU", "FRI", "SAT"]

/-- `formatDate` (src/index.ts:115-122), under the UTC local zone of
the model: `YYYY-MM-DD WKD`. -/
def formatDate (s : String) : String :=
  let z := jsDateParse s / MS_PER_DAY
  let c := civilFromDays z
  pad4 c.1 ++ "-" ++ pad2 c.2.1 ++ "-" ++ pad2 c.2.2 ++ " "
    ++ WEEKDAYS.getD ((z + 4) % 7).toNat ""

/-- `formatTime` (src/index.ts:108-113), under the UTC local zone of
the model: zero-padded 12-hour `hh:mm AM/PM`. -/
def formatTime (s : String) : String :=
  let tod := jsDateParse s % MS_PER_DAY
  let h := tod / 3600000
  let mi := tod % 3600000 / 60000
  pad2 (if h % 12 = 0 then 12 else h % 12) ++ ":" ++ pad2 mi
    ++ " " ++ (if h < 12 then "AM" else "PM")

/-- The league tag printed in each row. -/
def leagueTag : League → String
  | .CFB => "CFB"
  | .NFL => "NFL"

/-- One output row (src/index.ts:217-237): date label and start time
fall back to `day` and then to a week-only label / `TBD`. -/
def renderGame (g : Game) : String :=
  let dl :=
    if jsTruthy g.dateTime then formatDate (g.dateTime.getD "")
    else if jsTruthy g.day then formatDate (g.day.getD "")
    else "WEEK " ++ toString g.week ++ " (TBD)"
  let start :=
    if jsTruthy g.dateTime then formatTime (g.dateTime.getD "") else "TBD"
  "[" ++ dl ++ "][" ++ leagueTag g.league ++ "] " ++ g.away ++ " @ " ++ g.home
    ++ " - " ++ start ++ " - Channel: " ++ jsOr g.channel "N/A"

/-- The two filters of `main` (src/index.ts:172-190): the date filter
when an offset is selected, then the team filter when a team substring
was provided. -/
def selectGames (offset : Option Int) (team : String) (now tz : Int)
    (games : List Game) : List Game :=
  let afterDate :=
    match offset with
    | some d => games.filter (dateFilterKeep (computeTargetDate now tz d))
    | none => games
  if team == "" then afterDate
  else afterDate.filter (teamFilterKeep (strLower team))

/-- The single informational line for an empty result
(src/index.ts:192-199). -/
def noGamesMsg (offset : Option Int) (team : String) : String :=
  "No games found"
    ++ (if team == "" then "" else " for team matching \"" ++ team ++ "\"")
    ++ (match offset with
        | some d => " on day offset " ++ toString d
        | none => "")
    ++ "."

/-- The header line (src/index.ts:209-215); the trailing `:\n` is part
of the logged string. -/
def headerMsg (offset : Option Int) (team : String) (now tz : Int) : String :=
  (match offset with
   | some d => "Games for " ++ computeTargetDate now tz d
   | none =>
     if team == "" then "Games"
     else "All games for teams matching \"" ++ team ++ "\"") ++ ":\n"

/-- The fixed year (src/index.ts:18). -/
def YEAR : Int := 2025

/-- `${API_KEY}` in a template string: a missing key interpolates as
"undefined". -/
def keyParam (k : Option String) : String := k.getD "undefined"

/-- The CFB schedule endpoint (src/index.ts:24). -/
def CFB_URL (k : Option String) : String :=
  "https://api.sportsdata.io/v3/cfb/scores/json/Games/" ++ toString YEAR
    ++ "?key=" ++ keyParam k

/-- The NFL schedule endpoint (src/index.ts:25). -/
def NFL_URL (k : Option String) : String :=
  "https://api.sportsdata.io/v3/nfl/scores/json/Schedules/" ++ toString YEAR
    ++ "?key=" ++ keyParam k

/-- The NFL team directory endpoint (src/index.ts:26). -/
def NFL_TEAMS_URL (k : Option String) : String :=
  "https://api.sportsdata.io/v3/nfl/scores/json/Teams?key=" ++ keyParam k

/-- The world one run executes in: the API key, the current time and
local timezone offset, and per cache key the cache state and the
response the network would give. -/
structure Env where
  apiKey : Option String
  now : Int
  tz : Int
  teamsResp : NetResponse (List NFLTeam)
  cfbResp : NetResponse (List RawGame)
  nflResp : NetResponse (List RawGame)
  teamsCache : Option (CacheEntry (List NFLTeam))
  cfbCache : Option (CacheEntry (List RawGame))
  nflCache : Option (CacheEntry (List RawGame))

/-- The team-directory fetch of `fetchNFLTeams` (src/index.ts:75-81). -/
def teamsFetch (env : Env) : FetchResult (List NFLTeam) :=
  fetchWithCache (NFL_TEAMS_URL env.apiKey) env.now env.teamsResp env.teamsCache

/-- The CFB schedule fetch (src/index.ts:166). -/
def cfbFetch (env : Env) : FetchResult (List RawGame) :=
  fetchWithCache (CFB_URL env.apiKey) env.now env.cfbResp env.cfbCache

/-- The NFL schedule fetch (src/index.ts:167). -/
def nflFetch (env : Env) : FetchResult (List RawGame) :=
  fetchWithCache (NFL_URL env.apiKey) env.now env.nflResp env.nflCache

/-- `[...cfbGames, ...nflGames]` (src/index.ts:170) after
normalization. -/
def combinedGames (teams : List NFLTeam) (cfbRaw nflRaw : List RawGame) :
    List Game :=
  cfbRaw.map (normGame .CFB (teamLookup teams))
    ++ nflRaw.map (normGame .NFL (teamLookup teams))

/-- Observable outcome of one run: the `console.log` lines, the
`console.error` lines, the process exit code, and the number of
network requests issued. -/
structure RunOut where
  stdout : List String
  stderr : List String
  exit : Nat
  requests : Nat
deriving DecidableEq, Repr

/-- Requests issued by a run that reaches the two schedule fetches. -/
def totalReqs (env : Env) : Nat :=
  (teamsFetch env).requests + (cfbFetch env).requests + (nflFetch env).requests

/-- The `try` block of `main` (src/index.ts:160-240) with its `catch`:
a thrown error is printed once as `Error: <message>` on the error
stream and the run still exits 0.  When both schedule fetches fail the
model reports the CFB one (`Promise.all` rejects with whichever
settles first; the choice does not affect any stated property). -/
def runValidated (offset : Option Int) (team : String) (env : Env) : RunOut :=
  if jsTruthy env.apiKey then
    match (teamsFetch env).result with
    | .error m => ⟨[], ["Error: " ++ m], 0, (teamsFetch env).requests⟩
    | .ok teams =>
      match (cfbFetch env).result, (nflFetch env).result with
      | .error m, _ => ⟨[], ["Error: " ++ m], 0, totalReqs env⟩
      | .ok _, .error m => ⟨[], ["Error: " ++ m], 0, totalReqs env⟩
      | .ok cfbRaw, .ok nflRaw =>
        match selectGames offset team env.now env.tz
            (combinedGames teams cfbRaw nflRaw) with
        | [] => ⟨[noGamesMsg offset team], [], 0, totalReqs env⟩
        | g :: rest =>
          ⟨headerMsg offset team env.now env.tz
              :: (sortGames (g :: rest)).map renderGame, [], 0, totalReqs env⟩
  else ⟨[], ["Error: Missing API key in .env"], 0, 0⟩

/-- One full run of `main` (src/index.ts:142-241) for an invocation
without `--clear-cache`: argument validation, then the guarded
pipeline. -/
def mainRun (days team : String) (env : Env) : RunOut :=
  match validateDays days team with
  | .error msg => ⟨[], [msg], 1, 0⟩
  | .ok offset => runValidated offset team env

/-- The first error `runValidated` would throw, in program order:
missing API key, then the team-directory fetch, then the schedule
fetches. -/
def envError (env : Env) : Option String :=
  if jsTruthy env.apiKey then
    match (teamsFetch env).result with
    | .error m => some m
    | .ok _ =>
      match (cfbFetch env).result with
      | .error m => some m
      | .ok _ =>
        match (nflFetch env).result with
        | .error m => some m
        | .ok _ => none
  else some "Missing API key in .env"

/-- A concrete benign world: key present, empty cache, all endpoints
answering 200 with an empty array. -/
def demoEnv : Env :=
  { apiKey := some "KEY", now := 0, tz := 0,
    teamsResp := ⟨true, 200, some []⟩,
    cfbResp := ⟨true, 200, some []⟩,
    nflResp := ⟨true, 200, some []⟩,
    teamsCache := none, cfbCache := none, nflCache := none }

/-- C5 (amended): `--days` fails fast — usage error on the error
stream, exit code 1, zero network requests — exactly when
`parseInt(value, 10)` yields `NaN`, i.e. when the value has no leading
integer after optional whitespace and sign; a non-integer value with
an integer prefix (such as "3.5") is accepted as that prefix and does
not error. -/
theorem daysValidation (days team : String) (env : Env) (hne : days ≠ "") :
    (jsParseInt days = none →
      mainRun days team env = ⟨[], [invalidDaysMsg], 1, 0⟩) ∧
    (∀ n, jsParseInt days = some n → validateDays days team = .ok (some n)) := by
  have hb : (days == "") = false := beq_eq_false_iff_ne.mpr hne
  constructor
  · intro h
    simp [mainRun, validateDays, hb, h]
  · intro n h
    simp [validateDays, hb, h]

/-- C5 witness: the value "abc" has no leading integer, so the run
stops with the usage message, exit 1 and no network activity. -/
theorem daysValidation_witness :
    mainRun "abc" "" demoEnv = ⟨[], [invalidDaysMsg], 1, 0⟩ :=
  (daysValidation "abc" "" demoEnv (by decide)).1 rfl

/-- C5 counterexample: "3.5" is not an integer, yet the program does
not fail fast: `parseInt` truncates it to 3, the run proceeds, issues
all three network requests and exits 0. -/
theorem daysValidation_cex :
    isIntegerString "3.5" = false ∧
    validateDays "3.5" "" = .ok (some 3) ∧
    (mainRun "3.5" "" demoEnv).exit = 0 ∧
    (mainRun "3.5" "" demoEnv).requests = 3 := by
  refine ⟨by decide, rfl, by decide, by decide⟩

/-- C6: with neither `--days` nor `--team` the run is literally the
run with `--days 0` (offset 0, today's date filter); with `--team` and
no `--days` no date filter is applied — the selection is exactly the
team filter over all games, across all weeks. -/
theorem defaultSelection :
    (∀ env : Env, mainRun "" "" env = mainRun "0" "" env) ∧
    (∀ team : String, team ≠ "" → validateDays "" team = .ok none) ∧
    (∀ (team : String) (now tz : Int) (games : List Game), team ≠ "" →
      selectGames none team now tz games =
        games.filter (teamFilterKeep (strLower team))) := by
  refine ⟨?_, ?_, ?_⟩
  · intro env
    unfold mainRun
    rw [show validateDays "" "" = Except.ok (some 0) from rfl,
      show validateDays "0" "" = Except.ok (some 0) from rfl]
  · intro team h
    simp [validateDays, beq_eq_false_iff_ne.mpr h]
  · intro team now tz games h
    simp [selectGames, beq_eq_false_iff_ne.mpr h]

/-- C6 witness: `--team zzzz` alone selects no date filter, and the
pipeline then applies only the team filter. -/
theorem defaultSelection_witness :
    validateDays "" "zzzz" = .ok none ∧
    selectGames none "zzzz" 0 0 [] = [] :=
  ⟨defaultSelection.2.1 "zzzz" (by decide),
   (defaultSelection.2.2 "zzzz" 0 0 [] (by decide)).trans rfl⟩

theorem runValidated_noKey (offset : Option Int) (team : String) (env : Env)
    (hk : jsTruthy env.apiKey = false) :
    runValidated offset team env =
      ⟨[], ["Error: Missing API key in .env"], 0, 0⟩ := by
  unfold runValidated
  rw [hk]
  rfl

theorem runValidated_teamsErr (offset : Option Int) (team : String)
    (env : Env) (m : String)
    (hk : jsTruthy env.apiKey = true)
    (h1 : (teamsFetch env).result = .error m) :
    runValidated offset team env =
      ⟨[], ["Error: " ++ m], 0, (teamsFetch env).requests⟩ := by
  unfold runValidated
  rw [hk, h1]
  rfl

theorem runValidated_cfbErr (offset : Option Int) (team : String)
    (env : Env) (teams : List NFLTeam) (m : String)
    (hk : jsTruthy env.apiKey = true)
    (h1 : (teamsFetch env).result = .ok teams)
    (h2 : (cfbFetch env).result = .error m) :
    runValidated offset team env = ⟨[], ["Error: " ++ m], 0, totalReqs env⟩ := by
  unfold runValidated
  rw [hk, h1, h2]
  rfl

theorem runValidated_nflErr (offset : Option Int) (team : String)
    (env : Env) (teams : List NFLTeam) (cfbRaw : List RawGame) (m : String)
    (hk : jsTruthy env.apiKey = true)
    (h1 : (teamsFetch env).result = .ok teams)
    (h2 : (cfbFetch env).result = .ok cfbRaw)
    (h3 : (nflFetch env).result = .error m) :
    runValidated offset team env = ⟨[], ["Error: " ++ m], 0, totalReqs env⟩ := by
  unfold runValidated
  rw [hk, h1, h2, h3]
  rfl

theorem runValidated_ok (offset : Option Int) (team : String) (env : Env)
    (teams : List NFLTeam) (cfbRaw nflRaw : List RawGame)
    (hk : jsTruthy env.apiKey = true)
    (h1 : (teamsFetch env).result = .ok teams)
    (h2 : (cfbFetch env).result = .ok cfbRaw)
    (h3 : (nflFetch env).result = .ok nflRaw) :
    runValidated offset team env =
      match selectGames offset team env.now env.tz
          (combinedGames teams cfbRaw nflRaw) with
      | [] => ⟨[noGamesMsg offset team], [], 0, totalReqs env⟩
      | g :: rest =>
        ⟨headerMsg offset team env.now env.tz
            :: (sortGames (g :: rest)).map renderGame, [], 0, totalReqs env⟩ := by
  unfold runValidated
  rw [hk, h1, h2, h3]
  rfl

theorem mainRun_validated (days team : String) (env : Env) (off : Option Int)
    (hv : validateDays days team = .ok off) :
    mainRun days team env = runValidated off team env := by
  unfold mainRun
  rw [hv]

/-- C8: once argument validation has passed, the run always exits with
status 0 — including when a configuration, network or parse error is
thrown — and such an error is caught once at the top level and printed
to the error stream as the single line `Error: <message>`, with no
regular output. -/
theorem topLevelCatch (days team : String) (env : Env) (off : Option Int)
    (hv : validateDays days team = .ok off) :
    (mainRun days team env).exit = 0 ∧
    (∀ m, envError env = some m →
      (mainRun days team env).stdout = [] ∧
      (mainRun days team env).stderr = ["Error: " ++ m]) := by
  have hrun := mainRun_validated days team env off hv
  cases hk : jsTruthy env.apiKey
  · have he : envError env = some "Missing API key in .env" := by
      unfold envError
      rw [hk]
      rfl
    rw [hrun, runValidated_noKey off team env hk]
    refine ⟨rfl, fun m hm => ?_⟩
    rw [he] at hm
    injection hm with hm
    subst hm
    exact ⟨rfl, rfl⟩
  · cases h1 : (teamsFetch env).result with
    | error m =>
      have he : envError env = some m := by
        unfold envError
        rw [hk, h1]
        rfl
      rw [hrun, runValidated_teamsErr off team env m hk h1]
      refine ⟨rfl, fun m2 hm => ?_⟩
      rw [he] at hm
      injection hm with hm
      subst hm
      exact ⟨rfl, rfl⟩
    | ok teams =>
      cases h2 : (cfbFetch env).result with
      | error m =>
        have he : envError env = some m := by
          unfold envError
          rw [hk, h1, h2]
          rfl
        rw [hrun, runValidated_cfbErr off team env teams m hk h1 h2]
        refine ⟨rfl, fun m2 hm => ?_⟩
        rw [he] at hm
        injection hm with hm
        subst hm
        exact ⟨rfl, rfl⟩
      | ok cfbRaw =>
        cases h3 : (nflFetch env).result with
        | error m =>
          have he : envError env = some m := by
            unfold envError
            rw [hk, h1, h2, h3]
            rfl
          rw [hrun, runValidated_nflErr off team env teams cfbRaw m hk h1 h2 h3]
          refine ⟨rfl, fun m2 hm => ?_⟩
          rw [he] at hm
          injection hm with hm
          subst hm
          exact ⟨rfl, rfl⟩
        | ok nflRaw =>
          have he : envError env = none := by
            unfold envError
            rw [hk, h1, h2, h3]
            rfl
          rw [hrun, runValidated_ok off team env teams cfbRaw nflRaw hk h1 h2 h3]
          refine ⟨?_, fun m2 hm => by rw [he] at hm; exact Option.noConfusion hm⟩
          cases hf : selectGames off team env.now env.tz
              (combinedGames teams cfbRaw nflRaw) with
          | nil => rfl
          | cons g rest => rfl

/-- C8 witness: a run with the API key absent exits 0 and prints
exactly the configuration error on the error stream. -/
theorem topLevelCatch_witness :
    (mainRun "" "" { demoEnv with apiKey := none }).exit = 0 ∧
    (mainRun "" "" { demoEnv with apiKey := none }).stdout = [] ∧
    (mainRun "" "" { demoEnv with apiKey := none }).stderr =
      ["Error: Missing API key in .env"] :=
  ⟨(topLevelCatch "" "" { demoEnv with apiKey := none } (some 0) rfl).1,
   ((topLevelCatch "" "" { demoEnv with apiKey := none } (some 0) rfl).2
      "Missing API key in .env" rfl).1,
   ((topLevelCatch "" "" { demoEnv with apiKey := none } (some 0) rfl).2
      "Missing API key in .env" rfl).2⟩

/-- C9: with validation passed and all fetches succeeding, an empty
filtered selection produces exactly one informational line naming the
active filters, nothing on the error stream, no header and no game
rows, and exit status 0. -/
theorem emptyResult (days team : String) (env : Env) (off : Option Int)
    (teams : List NFLTeam) (cfbRaw nflRaw : List RawGame)
    (hv : validateDays days team = .ok off)
    (hk : jsTruthy env.apiKey = true)
    (h1 : (teamsFetch env).result = .ok teams)
    (h2 : (cfbFetch env).result = .ok cfbRaw)
    (h3 : (nflFetch env).result = .ok nflRaw)
    (hempty : selectGames off team env.now env.tz
      (combinedGames teams cfbRaw nflRaw) = []) :
    (mainRun days team env).stdout = [noGamesMsg off team] ∧
    (mainRun days team env).stderr = [] ∧
    (mainRun days team env).exit = 0 := by
  rw [mainRun_validated days team env off hv,
    runValidated_ok off team env teams cfbRaw nflRaw hk h1 h2 h3, hempty]
  exact ⟨rfl, rfl, rfl⟩

/-- C9 witness: team filter "zzzz" over an empty upstream schedule:
one line naming the team filter, no rows, no errors, exit 0. -/
theorem emptyResult_witness :
    (mainRun "" "zzzz" demoEnv).stdout =
      ["No games found for team matching \"zzzz\"."] ∧
    (mainRun "" "zzzz" demoEnv).stderr = [] ∧
    (mainRun "" "zzzz" demoEnv).exit = 0 :=
  emptyResult "" "zzzz" demoEnv none [] [] [] rfl rfl rfl rfl rfl rfl

end SSG
